import Mathlib

/-!
# bpftune: program lifecycle macros, sysctl tuner hooks and registry scans

A shallow embedding of

* `include/libbpftune.h`: the macros `bpftuner_bpf_open`, `bpftuner_bpf_destroy`,
  `_bpftuner_bpf_load`, `bpftuner_bpf_load`, `bpftuner_bpf_attach`, `bpftuner_bpf_init`,
  `bpftuner_for_each_tunable`, `bpftune_for_each_tuner` and the inline function
  `bpftuner_tunable_name`;
* `src/sysctl_tuner.c`: `init`, `fini` and `event_handler`.

Functions that the header only declares (`__bpftuner_bpf_load`, `__bpftuner_bpf_attach`,
`bpftuner_bpf_fini`, the generated skeleton `__open`/`__destroy`, `bpftuner_cgroup_attach`, ...)
are external calls: their outcomes are read from an environment `Env`, indexed by the number of
earlier calls, and every call is recorded as an event.  A macro that contains `return __err`
returns from the function that expands it; this is the `Flow.ret` outcome.
-/

namespace Bpftune

/-! ## Program lifecycle: data -/

/-- Result of a skeleton `__open()` call as stored in `tuner->skel`: a usable handle, identified
by the index of the open call that produced it, or a pointer that `libbpf_get_error` rejects
with the given non-zero code (no handle). -/
inductive SkelPtr where
  | valid (gen : Nat)
  | invalid (err : Int)
  deriving DecidableEq, Repr

/-- Members of the generated skeleton struct that the macros reach through `__skel`/`__lskel`. -/
inductive SkelField where
  | skeleton
  | bss_debug
  | bss_bpftune_pid
  | bss_tuner_id
  | obj
  | maps_ring_buffer_map
  | maps_corr_map
  deriving DecidableEq, Repr

/-- Attach types named by the sources. -/
inductive bpf_attach_type where
  | BPF_CGROUP_SYSCTL
  deriving DecidableEq, Repr

/-- Observable steps of the lifecycle code: external calls and accesses through the handle. -/
inductive Ev where
  /-- `tuner_name##_tuner_bpf__open()` or `..._bpf_legacy__open()` and what it returned. -/
  | skel_open (legacy : Bool) (result : SkelPtr)
  /-- a read or write of `p->field` -/
  | access (p : SkelPtr) (field : SkelField)
  /-- `libbpf_get_error(tuner->skel)` -/
  | get_error (p : SkelPtr) (err : Int)
  /-- `bpftune_log_bpf_err(err, ...)` -/
  | log_bpf_err (err : Int)
  /-- `__bpftuner_bpf_load(tuner, optionals)`; `optionals` is true when the list is non-NULL -/
  | bpf_load (p : SkelPtr) (optionals : Bool) (err : Int)
  /-- `__bpftuner_bpf_attach(tuner)` -/
  | bpf_attach (p : SkelPtr) (err : Int)
  /-- `tuner_name##_tuner_bpf__destroy(tuner->skel)` or the legacy variant -/
  | skel_destroy (legacy : Bool) (p : SkelPtr)
  /-- `bpftuner_bpf_fini(tuner)` -/
  | bpf_fini (p : SkelPtr)
  /-- `bpftuner_cgroup_attach(tuner, prog_name, attach_type)` -/
  | cgroup_attach (prog_name : String) (attach_type : bpf_attach_type) (err : Int)
  /-- `bpftuner_cgroup_detach(tuner, prog_name, attach_type)` -/
  | cgroup_detach (prog_name : String) (attach_type : bpf_attach_type)
  /-- the store `p->bss->tuner_id = bpftune_tuner_num()` -/
  | set_tuner_id (p : SkelPtr) (id : Nat)
  /-- `bpftune_log(level, ...)` -/
  | log (text : String)
  deriving DecidableEq, Repr

/-- The members of `struct bpftuner` written or read by the lifecycle macros.  `skeleton`, `obj`
and the two maps are copies taken from the handle, so they are recorded by the handle they were
copied from. -/
structure bpftuner where
  name : String
  bpf_legacy : Bool
  skel : SkelPtr
  skeleton : Option Nat
  obj : Option Nat
  ring_buffer_map : Option Nat
  corr_map : Option Nat
  deriving DecidableEq, Repr

/-- Outcomes of the external calls.  The n-th call of each kind (counting from 0) reads entry n. -/
structure Env where
  /-- `bpftuner_bpf_legacy()` at the n-th open -/
  bpf_legacy : Nat → Bool
  /-- 0 when the n-th skeleton open yields a handle, otherwise the code `libbpf_get_error`
  reports for what it returned -/
  open_err : Nat → Int
  /-- return value of the n-th `__bpftuner_bpf_load` -/
  load_err : Nat → Int
  /-- return value of the n-th `__bpftuner_bpf_attach` -/
  attach_err : Nat → Int
  /-- return value of the n-th call of `bpftune_tuner_num()` -/
  tuner_num : Nat → Nat
  /-- return value of `bpftuner_cgroup_attach` -/
  cgroup_attach_err : Int

/-- Machine state: the tuner and the number of external calls of each kind made so far. -/
structure Mach where
  tuner : bpftuner
  opens : Nat
  loads : Nat
  attaches : Nat
  nums : Nat
  deriving DecidableEq, Repr

/-- How a piece of code ends: it falls through to the next statement, it makes the enclosing
function return `code`, or it dereferences a pointer that is not a handle. -/
inductive Flow (α : Type) where
  | next (a : α)
  | ret (code : Int)
  | fault
  deriving DecidableEq, Repr

/-- Code fragment: from a machine state to an outcome, the new state and the events emitted. -/
def Exec (α : Type) : Type := Mach → Flow α × Mach × List Ev

/-- Sequencing: the second fragment runs only when the first falls through. -/
def Exec.bind {α β : Type} (x : Exec α) (f : α → Exec β) : Exec β := fun m =>
  match x m with
  | (Flow.next a, m1, es1) =>
    match f a m1 with
    | (r, m2, es2) => (r, m2, es1 ++ es2)
  | (Flow.ret c, m1, es1) => (Flow.ret c, m1, es1)
  | (Flow.fault, m1, es1) => (Flow.fault, m1, es1)

instance : Monad Exec where
  pure a := fun m => (Flow.next a, m, [])
  bind := Exec.bind

/-- Record one event. -/
def emit (e : Ev) : Exec Unit := fun m => (Flow.next (), m, [e])

/-- The C statement `return code;` inside a macro body. -/
def ret {α : Type} (code : Int) : Exec α := fun m => (Flow.ret code, m, [])

/-- Read the machine state. -/
def getMach : Exec Mach := fun m => (Flow.next m, m, [])

/-- Read the tuner. -/
def getTuner : Exec bpftuner := fun m => (Flow.next m.tuner, m, [])

/-- Update the tuner. -/
def setTuner (f : bpftuner → bpftuner) : Exec Unit := fun m =>
  (Flow.next (), { m with tuner := f m.tuner }, [])

/-- Access `p->field`: recorded, and a fault when `p` is not a handle. -/
def deref (p : SkelPtr) (field : SkelField) : Exec (Option Nat) := fun m =>
  match p with
  | SkelPtr.valid g => (Flow.next (some g), m, [Ev.access p field])
  | SkelPtr.invalid _ => (Flow.fault, m, [Ev.access p field])

/-- The skeleton open call: the n-th call yields handle n when `open_err n = 0`. -/
def skel_open (env : Env) (legacy : Bool) : Exec SkelPtr := fun m =>
  let p := if env.open_err m.opens = 0 then SkelPtr.valid m.opens
           else SkelPtr.invalid (env.open_err m.opens)
  (Flow.next p, { m with opens := m.opens + 1 }, [Ev.skel_open legacy p])

/-- Model of `libbpf_get_error(ptr)`: 0 for a handle, the error code otherwise. -/
def libbpf_get_error (p : SkelPtr) : Exec Int := fun m =>
  match p with
  | SkelPtr.valid _ => (Flow.next 0, m, [Ev.get_error p 0])
  | SkelPtr.invalid e => (Flow.next e, m, [Ev.get_error p e])

/-- External `__bpftuner_bpf_load(tuner, optionals)`. -/
def __bpftuner_bpf_load (env : Env) (optionals : Option (List String)) : Exec Int := fun m =>
  (Flow.next (env.load_err m.loads), { m with loads := m.loads + 1 },
    [Ev.bpf_load m.tuner.skel optionals.isSome (env.load_err m.loads)])

/-- External `__bpftuner_bpf_attach(tuner)`. -/
def __bpftuner_bpf_attach (env : Env) : Exec Int := fun m =>
  (Flow.next (env.attach_err m.attaches), { m with attaches := m.attaches + 1 },
    [Ev.bpf_attach m.tuner.skel (env.attach_err m.attaches)])

/-- External `bpftune_tuner_num()`. -/
def bpftune_tuner_num (env : Env) : Exec Nat := fun m =>
  (Flow.next (env.tuner_num m.nums), { m with nums := m.nums + 1 }, [])

/-- The store `p->bss->tuner_id = id`: a fault when `p` is not a handle. -/
def store_tuner_id (p : SkelPtr) (id : Nat) : Exec Unit := fun m =>
  match p with
  | SkelPtr.valid _ => (Flow.next (), m, [Ev.set_tuner_id p id])
  | SkelPtr.invalid _ => (Flow.fault, m, [Ev.access p SkelField.bss_tuner_id])

/-- External `bpftuner_cgroup_attach(tuner, prog_name, attach_type)`. -/
def bpftuner_cgroup_attach (env : Env) (prog_name : String) (attach_type : bpf_attach_type) :
    Exec Int := fun m =>
  (Flow.next env.cgroup_attach_err, m,
    [Ev.cgroup_attach prog_name attach_type env.cgroup_attach_err])

/-- External `bpftuner_cgroup_detach(tuner, prog_name, attach_type)`. -/
def bpftuner_cgroup_detach (prog_name : String) (attach_type : bpf_attach_type) :
    Exec Unit := fun m =>
  (Flow.next (), m, [Ev.cgroup_detach prog_name attach_type])

/-- External `bpftuner_bpf_fini(tuner)`. -/
def bpftuner_bpf_fini : Exec Unit := fun m =>
  (Flow.next (), m, [Ev.bpf_fini m.tuner.skel])

/-! ## Program lifecycle: the macros of `libbpftune.h` -/

/-- Macro `bpftuner_bpf_open(tuner_name, tuner)`. -/
def bpftuner_bpf_open (env : Env) (tuner_name : String) : Exec Unit := do
  setTuner (fun t => { t with name := tuner_name })
  let m ← getMach
  setTuner (fun t => { t with bpf_legacy := env.bpf_legacy m.opens })
  let t ← getTuner
  if !t.bpf_legacy then
    let __skel ← skel_open env false
    setTuner (fun t => { t with skel := __skel })
    let sk ← deref __skel SkelField.skeleton
    setTuner (fun t => { t with skeleton := sk })
    let _ ← deref __skel SkelField.bss_debug
    let _ ← deref __skel SkelField.bss_bpftune_pid
    let ob ← deref __skel SkelField.obj
    setTuner (fun t => { t with obj := ob })
    let rb ← deref __skel SkelField.maps_ring_buffer_map
    setTuner (fun t => { t with ring_buffer_map := rb })
    let cm ← deref __skel SkelField.maps_corr_map
    setTuner (fun t => { t with corr_map := cm })
  else
    let __lskel ← skel_open env true
    setTuner (fun t => { t with skel := __lskel })
    let sk ← deref __lskel SkelField.skeleton
    setTuner (fun t => { t with skeleton := sk })
    let _ ← deref __lskel SkelField.bss_debug
    let _ ← deref __lskel SkelField.bss_bpftune_pid
    let ob ← deref __lskel SkelField.obj
    setTuner (fun t => { t with obj := ob })
    let rb ← deref __lskel SkelField.maps_ring_buffer_map
    setTuner (fun t => { t with ring_buffer_map := rb })
    let cm ← deref __lskel SkelField.maps_corr_map
    setTuner (fun t => { t with corr_map := cm })
  let t ← getTuner
  let __err ← libbpf_get_error t.skel
  if __err ≠ 0 then
    emit (Ev.log_bpf_err __err)
    ret __err

/-- Macro `bpftuner_bpf_destroy(tuner_name, tuner)`. -/
def bpftuner_bpf_destroy : Exec Unit := fun m =>
  if !m.tuner.bpf_legacy then
    (Flow.next (), m, [Ev.skel_destroy false m.tuner.skel])
  else
    (Flow.next (), m, [Ev.skel_destroy true m.tuner.skel])

/-- Macro `_bpftuner_bpf_load(tuner_name, tuner, optionals)`. -/
def _bpftuner_bpf_load (env : Env) (optionals : Option (List String)) : Exec Unit := do
  let t ← getTuner
  let __skel := t.skel
  let __lskel := t.skel
  let __err ← __bpftuner_bpf_load env optionals
  if __err ≠ 0 then
    bpftuner_bpf_destroy
    ret __err
  let t ← getTuner
  if !t.bpf_legacy then
    let id ← bpftune_tuner_num env
    store_tuner_id __skel id
  else
    let id ← bpftune_tuner_num env
    store_tuner_id __lskel id

/-- Macro `bpftuner_bpf_load(tuner_name, tuner)`. -/
def bpftuner_bpf_load (env : Env) : Exec Unit :=
  _bpftuner_bpf_load env none

/-- Macro `bpftuner_bpf_attach(tuner_name, tuner, optionals)`. -/
def bpftuner_bpf_attach (env : Env) (tuner_name : String) (optionals : Option (List String)) :
    Exec Unit := do
  let __err ← __bpftuner_bpf_attach env
  let __err ←
    if __err ≠ 0 ∧ optionals ≠ none then do
      bpftuner_bpf_fini
      bpftuner_bpf_open env tuner_name
      _bpftuner_bpf_load env optionals
      __bpftuner_bpf_attach env
    else
      pure __err
  if __err ≠ 0 then
    bpftuner_bpf_destroy
    ret __err

/-- Macro `bpftuner_bpf_init(tuner_name, tuner, optionals)`. -/
def bpftuner_bpf_init (env : Env) (tuner_name : String) (optionals : Option (List String)) :
    Exec Unit := do
  bpftuner_bpf_open env tuner_name
  bpftuner_bpf_load env
  bpftuner_bpf_attach env tuner_name optionals

/-! ## `sysctl_tuner.c`: `init` and `fini` -/

/-- Function `init` of the sysctl tuner.  The call in the source is written
`bpftuner_bpf_init(sysctl, tuner)`; the macro of `libbpftune.h` has a third parameter
`optionals`, which is therefore an argument here. -/
def init (env : Env) (optionals : Option (List String)) : Exec Unit := do
  bpftuner_bpf_init env "sysctl" optionals
  let rc ← bpftuner_cgroup_attach env "sysctl_write" bpf_attach_type.BPF_CGROUP_SYSCTL
  if rc ≠ 0 then
    ret 1
  ret 0

/-- Function `fini` of the sysctl tuner. -/
def fini : Exec Unit := do
  let t ← getTuner
  emit (Ev.log ("calling fini for " ++ t.name))
  bpftuner_cgroup_detach "sysctl_write" bpf_attach_type.BPF_CGROUP_SYSCTL
  bpftuner_bpf_fini

/-! ## Handle accounting over an event trace -/

/-- One step of handle accounting.  The state is the list of handles that are open and not yet
released, or `none` once a release was applied to something that is not such a handle (a second
release, or a release of a pointer that is no handle). -/
def track_step (live : Option (List Nat)) (e : Ev) : Option (List Nat) :=
  match live with
  | none => none
  | some l =>
    match e with
    | Ev.skel_open _ (SkelPtr.valid g) => some (l ++ [g])
    | Ev.skel_destroy _ (SkelPtr.valid g) => if g ∈ l then some (l.erase g) else none
    | Ev.bpf_fini (SkelPtr.valid g) => if g ∈ l then some (l.erase g) else none
    | Ev.skel_destroy _ (SkelPtr.invalid _) => none
    | Ev.bpf_fini (SkelPtr.invalid _) => none
    | _ => some l

/-- Handles left open by a trace that starts with no handle open; `none` when some release in
the trace did not hit an open handle. -/
def track (es : List Ev) : Option (List Nat) := es.foldl track_step (some [])

/-- Number of `__bpftuner_bpf_attach` calls in a trace. -/
def attach_attempts (es : List Ev) : Nat :=
  (es.filter (fun e => match e with | Ev.bpf_attach _ _ => true | _ => false)).length

/-- Number of `__bpftuner_bpf_load` calls in a trace. -/
def load_attempts (es : List Ev) : Nat :=
  (es.filter (fun e => match e with | Ev.bpf_load _ _ _ => true | _ => false)).length

/-- Number of skeleton open calls in a trace. -/
def open_attempts (es : List Ev) : Nat :=
  (es.filter (fun e => match e with | Ev.skel_open _ _ => true | _ => false)).length

/-- The external calls of a trace, in order, without the accesses and log lines. -/
def calls (es : List Ev) : List Ev :=
  es.filter (fun e => match e with
    | Ev.access _ _ => false
    | Ev.get_error _ _ => false
    | Ev.log_bpf_err _ => false
    | Ev.set_tuner_id _ _ => false
    | Ev.log _ => false
    | _ => true)

/-! ## Index scans: `bpftuner_for_each_tunable`, `bpftune_for_each_tuner` -/

/-- Number of values of `unsigned int`, the type of the loop counters `__itun` and `__it`. -/
def UINT_MOD : Nat := 4294967296

/-- The part of `struct bpftunable_desc` the sources read: the tunable name, a C string. -/
structure bpftunable_desc where
  name : List Char
  deriving DecidableEq, Repr

/-- The part of `struct bpftunable` the sources read. -/
structure bpftunable where
  desc : bpftunable_desc
  deriving DecidableEq, Repr

/-- Modelled from the spec: `enum bpftune_state` is declared in `bpftune.h`, which is not among
the sources.  The spec lists the lifecycle states active, manually-disabled and error; the code
names `BPFTUNE_MANUAL`. -/
inductive bpftune_state where
  | BPFTUNE_ACTIVE
  | BPFTUNE_MANUAL
  | BPFTUNE_ERROR
  deriving DecidableEq, Repr

/-- A `struct bpftuner *` as seen by the scans: tuners are told apart by a number. -/
abbrev TunerPtr : Type := Nat

/-- The external lookups used by the scans.  They are fixed functions: a scan is modelled over a
registry whose lookups are not changed while the scan runs. -/
structure Lookups where
  /-- `bpftune_tuner(index)`; `none` is NULL -/
  bpftune_tuner : Nat → Option TunerPtr
  /-- `bpftuner_tunable(tuner, index)`; `none` is NULL -/
  bpftuner_tunable : TunerPtr → Nat → Option bpftunable
  /-- `bpftune_sysctl_name_to_path(name, path, sizeof(path))`: the contents left in `path` -/
  bpftune_sysctl_name_to_path : List Char → List Char
  /-- the member `tuner->name` -/
  tuner_name : TunerPtr → List Char

/-- The loop `for (unsigned int i = 0; (x = lookup(i)); i++) body` from index `i` on.  The body
gets the loop state, the index and the element; it answers the new state and whether it executed
`break`, or `none` when it does not return.  `fuel` bounds the number of lookups; `none` means
the bound was reached. -/
def for_each_index {X σ : Type} (lookup : Nat → Option X)
    (body : σ → Nat → X → Option (σ × Bool)) : Nat → Nat → σ → Option σ
  | 0, _, _ => none
  | fuel + 1, i, s =>
    match lookup i with
    | none => some s
    | some x =>
      match body s i x with
      | none => none
      | some (s1, true) => some s1
      | some (s1, false) => for_each_index lookup body fuel ((i + 1) % UINT_MOD) s1

/-- Macro `bpftuner_for_each_tunable(tuner, tunable)`. -/
def bpftuner_for_each_tunable {σ : Type} (L : Lookups) (tuner : TunerPtr)
    (body : σ → Nat → bpftunable → Option (σ × Bool)) (fuel : Nat) (s : σ) : Option σ :=
  for_each_index (L.bpftuner_tunable tuner) body fuel 0 s

/-- Macro `bpftune_for_each_tuner(tuner)`. -/
def bpftune_for_each_tuner {σ : Type} (L : Lookups)
    (body : σ → Nat → TunerPtr → Option (σ × Bool)) (fuel : Nat) (s : σ) : Option σ :=
  for_each_index L.bpftune_tuner body fuel 0 s

/-- Inline function `bpftuner_tunable_name(tuner, index)`; `none` is NULL. -/
def bpftuner_tunable_name (L : Lookups) (tuner : TunerPtr) (index : Nat) : Option (List Char) :=
  let t := L.bpftuner_tunable tuner index
  match t with
  | some t => some t.desc.name
  | none => none

/-- Loop body that only records what it is given and never breaks. -/
def visit (s : List (Nat × bpftunable)) (i : Nat) (t : bpftunable) :
    Option (List (Nat × bpftunable) × Bool) :=
  some (s ++ [(i, t)], false)

/-! ## `sysctl_tuner.c`: `event_handler` -/

/-- C library `strstr(haystack, needle)`: offset of the first occurrence of `needle`, `none` for
NULL.  An empty needle is found at offset 0. -/
def strstr : List Char → List Char → Option Nat
  | [], needle => if needle.isPrefixOf [] then some 0 else none
  | c :: hay, needle =>
    if needle.isPrefixOf (c :: hay) then some 0 else (strstr hay needle).map (fun k => k + 1)

/-- The members of `struct bpftune_event` read by the handler. -/
structure bpftune_event where
  str : List Char
  scenario_id : Int
  deriving DecidableEq, Repr

/-- Syslog level `LOG_INFO`. -/
def LOG_INFO : Nat := 6

/-- Syslog level `LOG_DEBUG`. -/
def LOG_DEBUG : Nat := 7

/-- What the handler does that is visible outside: log lines and teardown calls. -/
inductive HEv where
  /-- `bpftune_log(level, fmt, args...)` with its string arguments -/
  | log (level : Nat) (args : List (List Char))
  /-- `bpftuner_fini(t, state)` -/
  | bpftuner_fini (t : TunerPtr) (state : bpftune_state)
  deriving DecidableEq, Repr

/-- Body of the inner loop of `event_handler` for tuner `t`. -/
def tunable_body (L : Lookups) (event : bpftune_event) (t : TunerPtr)
    (s : List HEv) (_i : Nat) (tunable : bpftunable) : Option (List HEv × Bool) :=
  let path := L.bpftune_sysctl_name_to_path tunable.desc.name
  let s := s ++ [HEv.log LOG_DEBUG [path, event.str]]
  if (strstr path event.str).isSome then
    some (s ++ [HEv.log LOG_INFO [event.str, L.tuner_name t, L.tuner_name t],
                HEv.bpftuner_fini t bpftune_state.BPFTUNE_MANUAL], true)
  else
    some (s, false)

/-- Body of the outer loop of `event_handler`. -/
def tuner_body (L : Lookups) (tuner : TunerPtr) (event : bpftune_event) (fuel : Nat)
    (s : List HEv) (_i : Nat) (t : TunerPtr) : Option (List HEv × Bool) :=
  let s := s ++ [HEv.log LOG_DEBUG [L.tuner_name tuner]]
  match bpftuner_for_each_tunable L t (tunable_body L event t) fuel s with
  | none => none
  | some s1 => some (s1, false)

/-- Function `event_handler(tuner, event, ctx)` of the sysctl tuner.  Each of the loops may make
at most `fuel` lookups; the result is `none` when a loop needs more. -/
def event_handler (L : Lookups) (tuner : TunerPtr) (event : bpftune_event) (fuel : Nat) :
    Option (List HEv) :=
  bpftune_for_each_tuner L (tuner_body L tuner event fuel) fuel
    [HEv.log LOG_DEBUG [event.str, L.tuner_name tuner]]

/-- The tuners on which a trace calls `bpftuner_fini(t, BPFTUNE_MANUAL)`, in call order. -/
def finis : List HEv → List TunerPtr
  | [] => []
  | HEv.bpftuner_fini t bpftune_state.BPFTUNE_MANUAL :: es => t :: finis es
  | _ :: es => finis es

/-- The registered tuners, in registry order, when `K` is the first index without a tuner. -/
def registered (L : Lookups) (K : Nat) : List TunerPtr :=
  (List.range K).filterMap L.bpftune_tuner

/-- Whether one of the tunables of `t` at indices below `len` has a path in which `str` occurs. -/
def has_match (L : Lookups) (str : List Char) (t : TunerPtr) (len : Nat) : Bool :=
  (List.range len).any (fun i =>
    match L.bpftuner_tunable t i with
    | some tunable => (strstr (L.bpftune_sysctl_name_to_path tunable.desc.name) str).isSome
    | none => false)

/-- Modelled from the spec: `bpftune_sysctl_name_to_path` is declared in `libbpftune.h` and
defined outside the sources.  The spec: tunable names map to paths under a fixed root, the
translation is purely textual (dots to separators).  The root is `BPFTUNE_PROC_SYS`. -/
def sysctl_name_to_path (name : List Char) : List Char :=
  "/proc/sys/".toList ++ name.map (fun c => if c = '.' then '/' else c)

/-! ## Concrete inputs -/

/-- A tuner before any open: no handle. -/
def fresh_tuner : bpftuner :=
  { name := "", bpf_legacy := false, skel := SkelPtr.invalid (-1), skeleton := none, obj := none,
    ring_buffer_map := none, corr_map := none }

/-- Initial machine: a fresh tuner, no external call made yet. -/
def fresh : Mach := { tuner := fresh_tuner, opens := 0, loads := 0, attaches := 0, nums := 0 }

/-- Environment in which every external call succeeds, current (non-legacy) format. -/
def env_ok : Env :=
  { bpf_legacy := fun _ => false, open_err := fun _ => 0, load_err := fun _ => 0,
    attach_err := fun _ => 0, tuner_num := fun _ => 0, cgroup_attach_err := 0 }

/-- Environment in which the skeleton open fails with -12, current format. -/
def env_open_fails : Env := { env_ok with open_err := fun _ => -12 }

/-- Environment in which the skeleton open fails with -12, legacy format. -/
def env_open_fails_legacy : Env :=
  { env_ok with open_err := fun _ => -12, bpf_legacy := fun _ => true }

/-- Environment in which every load fails with -22. -/
def env_load_fails : Env := { env_ok with load_err := fun _ => -22 }

/-- Environment in which the first attach fails with -1 and every load after the first fails
with -22. -/
def env_reload_fails : Env :=
  { env_ok with attach_err := fun n => if n = 0 then -1 else 0,
                load_err := fun n => if n = 0 then 0 else -22 }

/-- Environment in which every attach fails with -1 and every skeleton open after the first
fails with -12. -/
def env_reopen_fails : Env :=
  { env_ok with attach_err := fun _ => -1,
                open_err := fun n => if n = 0 then 0 else -12 }

/-- Environment in which only `bpftuner_cgroup_attach` fails. -/
def env_cgroup_fails : Env := { env_ok with cgroup_attach_err := -1 }

/-- Machine after a successful open of the sysctl tuner: handle 0 is open, nothing is loaded. -/
def opened_once : Mach :=
  { tuner := { name := "sysctl", bpf_legacy := false, skel := SkelPtr.valid 0,
               skeleton := some 0, obj := some 0, ring_buffer_map := some 0,
               corr_map := some 0 },
    opens := 1, loads := 0, attaches := 0, nums := 0 }

/-- Machine after a successful open and load of the sysctl tuner: handle 0 is open. -/
def loaded : Mach :=
  { tuner := { name := "sysctl", bpf_legacy := false, skel := SkelPtr.valid 0,
               skeleton := some 0, obj := some 0, ring_buffer_map := some 0,
               corr_map := some 0 },
    opens := 1, loads := 1, attaches := 0, nums := 1 }

/-- Registry of three tuners 10, 11, 12.  Tuner 10 has tunables at indices 0 and 1, none at 2
and one more at 3; tuner 11 has none; tuner 12 has one. -/
def reg3 : Lookups :=
  { bpftune_tuner := fun i => if i < 3 then some (10 + i) else none,
    bpftuner_tunable := fun t i =>
      match t, i with
      | 10, 0 => some { desc := { name := "net.ipv4.tcp_wmem".toList } }
      | 10, 1 => some { desc := { name := "net.ipv4.tcp_rmem".toList } }
      | 10, 3 => some { desc := { name := "net.core.x".toList } }
      | 12, 0 => some { desc := { name := "net.ipv6.route.max_size".toList } }
      | _, _ => none,
    bpftune_sysctl_name_to_path := sysctl_name_to_path,
    tuner_name := fun _ => [] }

/-- Index of the first absent tunable of each tuner of `reg3`. -/
def reg3_len (t : TunerPtr) : Nat := if t = 10 then 2 else if t = 12 then 1 else 0

/-- Registry with the single tuner 1, whose only tunable is `net.ipv4.tcp_mem`. -/
def reg1 : Lookups :=
  { bpftune_tuner := fun i => if i = 0 then some 1 else none,
    bpftuner_tunable := fun t i =>
      match t, i with
      | 1, 0 => some { desc := { name := "net.ipv4.tcp_mem".toList } }
      | _, _ => none,
    bpftune_sysctl_name_to_path := sysctl_name_to_path,
    tuner_name := fun _ => [] }

/-- Event whose string holds the path of `net.ipv4.tcp_mem` followed by two more characters. -/
def ev_longer : bpftune_event := { str := "/proc/sys/net/ipv4/tcp_mem_x".toList, scenario_id := 0 }

/-- Event whose string is a fragment of the path of `net.ipv4.tcp_rmem`. -/
def ev_rmem : bpftune_event := { str := "tcp_rmem".toList, scenario_id := 0 }

/-! # Theorems -/

/-! ## Closed forms of the lifecycle macros -/

theorem open_eq (env : Env) (name : String) (m : Mach) :
    bpftuner_bpf_open env name m =
      if env.open_err m.opens = 0 then
        (Flow.next (),
          { m with
            tuner := { name := name, bpf_legacy := env.bpf_legacy m.opens,
                       skel := SkelPtr.valid m.opens, skeleton := some m.opens,
                       obj := some m.opens, ring_buffer_map := some m.opens,
                       corr_map := some m.opens },
            opens := m.opens + 1 },
          [Ev.skel_open (env.bpf_legacy m.opens) (SkelPtr.valid m.opens),
           Ev.access (SkelPtr.valid m.opens) SkelField.skeleton,
           Ev.access (SkelPtr.valid m.opens) SkelField.bss_debug,
           Ev.access (SkelPtr.valid m.opens) SkelField.bss_bpftune_pid,
           Ev.access (SkelPtr.valid m.opens) SkelField.obj,
           Ev.access (SkelPtr.valid m.opens) SkelField.maps_ring_buffer_map,
           Ev.access (SkelPtr.valid m.opens) SkelField.maps_corr_map,
           Ev.get_error (SkelPtr.valid m.opens) 0])
      else
        (Flow.fault,
          { m with
            tuner := { name := name, bpf_legacy := env.bpf_legacy m.opens,
                       skel := SkelPtr.invalid (env.open_err m.opens),
                       skeleton := m.tuner.skeleton, obj := m.tuner.obj,
                       ring_buffer_map := m.tuner.ring_buffer_map,
                       corr_map := m.tuner.corr_map },
            opens := m.opens + 1 },
          [Ev.skel_open (env.bpf_legacy m.opens) (SkelPtr.invalid (env.open_err m.opens)),
           Ev.access (SkelPtr.invalid (env.open_err m.opens)) SkelField.skeleton]) := by
  by_cases h : env.open_err m.opens = 0 <;> cases hl : env.bpf_legacy m.opens <;>
    simp [bpftuner_bpf_open, libbpf_get_error, skel_open, deref, setTuner, getTuner, getMach, ret,
      emit, bind, Exec.bind, pure, h, hl]

theorem load_eq (env : Env) (optionals : Option (List String)) (m : Mach) :
    _bpftuner_bpf_load env optionals m =
      if env.load_err m.loads ≠ 0 then
        (Flow.ret (env.load_err m.loads), { m with loads := m.loads + 1 },
          [Ev.bpf_load m.tuner.skel optionals.isSome (env.load_err m.loads),
           Ev.skel_destroy m.tuner.bpf_legacy m.tuner.skel])
      else
        match m.tuner.skel with
        | SkelPtr.valid g =>
          (Flow.next (), { m with loads := m.loads + 1, nums := m.nums + 1 },
            [Ev.bpf_load (SkelPtr.valid g) optionals.isSome 0,
             Ev.set_tuner_id (SkelPtr.valid g) (env.tuner_num m.nums)])
        | SkelPtr.invalid e =>
          (Flow.fault, { m with loads := m.loads + 1, nums := m.nums + 1 },
            [Ev.bpf_load (SkelPtr.invalid e) optionals.isSome 0,
             Ev.access (SkelPtr.invalid e) SkelField.bss_tuner_id]) := by
  by_cases h : env.load_err m.loads = 0 <;> cases hl : m.tuner.bpf_legacy <;>
    cases hs : m.tuner.skel <;>
    simp [_bpftuner_bpf_load, __bpftuner_bpf_load, bpftuner_bpf_destroy, store_tuner_id,
      bpftune_tuner_num, getTuner, ret, bind, Exec.bind, pure, h, hl, hs]

theorem destroy_eq (m : Mach) :
    bpftuner_bpf_destroy m = (Flow.next (), m, [Ev.skel_destroy m.tuner.bpf_legacy m.tuner.skel]) := by
  cases h : m.tuner.bpf_legacy <;> simp [bpftuner_bpf_destroy, h]

/-! ## Lemmas on `strstr` and the index scans -/

theorem strstr_isSome_iff (hay needle : List Char) :
    (strstr hay needle).isSome = true ↔ needle <:+: hay := by
  induction hay with
  | nil =>
    cases needle <;> simp [strstr, List.isPrefixOf]
  | cons c hay ih =>
    rw [List.infix_cons_iff]
    by_cases hp : needle.isPrefixOf (c :: hay) = true
    · simp only [strstr, hp, if_true, Option.isSome_some, true_iff]
      exact Or.inl (List.isPrefixOf_iff_prefix.mp hp)
    · have hp2 : ¬ needle <+: c :: hay := fun h => hp (List.isPrefixOf_iff_prefix.mpr h)
      have hp3 : needle.isPrefixOf (c :: hay) = false := Bool.eq_false_iff.mpr hp
      simp only [strstr, hp3, Bool.false_eq_true, if_false, Option.isSome_map', ih]
      constructor
      · exact fun h => Or.inr h
      · rintro (h | h)
        · exact absurd h hp2
        · exact h

theorem strstr_nil (hay : List Char) : (strstr hay []).isSome = true :=
  (strstr_isSome_iff hay []).mpr List.nil_infix

theorem finis_append (a b : List HEv) : finis (a ++ b) = finis a ++ finis b := by
  induction a with
  | nil => rfl
  | cons e a ih =>
    cases e with
    | log l args => simpa [finis] using ih
    | bpftuner_fini t st => cases st <;> simpa [finis] using ih

theorem visit_run (lookup : Nat → Option bpftunable) (k : Nat)
    (hk : lookup k = none) (hkb : k < UINT_MOD) :
    ∀ (n i : Nat) (s : List (Nat × bpftunable)) (fuel : Nat), i + n = k →
      (∀ j, i ≤ j → j < k → lookup j ≠ none) → n < fuel →
      ∃ vs, for_each_index lookup visit fuel i s = some (s ++ vs) ∧
        vs.map Prod.fst = List.range' i n ∧ ∀ p ∈ vs, lookup p.1 = some p.2 := by
  intro n
  induction n with
  | zero =>
    intro i s fuel hik _ hf
    obtain ⟨f, rfl⟩ : ∃ f, fuel = f + 1 := ⟨fuel - 1, by omega⟩
    have : i = k := by omega
    subst this
    exact ⟨[], by simp [for_each_index, hk], by simp, by simp⟩
  | succ n ih =>
    intro i s fuel hik hpres hf
    obtain ⟨f, rfl⟩ : ∃ f, fuel = f + 1 := ⟨fuel - 1, by omega⟩
    obtain ⟨x, hx⟩ := Option.ne_none_iff_exists'.mp (hpres i (le_refl _) (by omega))
    have hmod : (i + 1) % UINT_MOD = i + 1 := Nat.mod_eq_of_lt (by omega)
    obtain ⟨vs, h1, h2, h3⟩ := ih (i + 1) (s ++ [(i, x)]) f (by omega)
      (fun j hj hjk => hpres j (by omega) hjk) (by omega)
    refine ⟨(i, x) :: vs, ?_, ?_, ?_⟩
    · simp [for_each_index, hx, visit, hmod, h1]
    · simp [h2, List.range'_succ]
    · intro p hp
      rcases List.mem_cons.mp hp with rfl | hp
      · exact hx
      · exact h3 p hp

theorem inner_run (L : Lookups) (event : bpftune_event) (t : TunerPtr) (k : Nat)
    (hk : L.bpftuner_tunable t k = none) (hkb : k < UINT_MOD) :
    ∀ (n i : Nat) (s : List HEv) (fuel : Nat), i + n = k →
      (∀ j, i ≤ j → j < k → L.bpftuner_tunable t j ≠ none) → n < fuel →
      ∃ s1, for_each_index (L.bpftuner_tunable t) (tunable_body L event t) fuel i s = some s1 ∧
        finis s1 = finis s ++
          (if (List.range' i n).any (fun i =>
              match L.bpftuner_tunable t i with
              | some tunable =>
                (strstr (L.bpftune_sysctl_name_to_path tunable.desc.name) event.str).isSome
              | none => false) = true then [t] else []) := by
  intro n
  induction n with
  | zero =>
    intro i s fuel hik _ hf
    obtain ⟨f, rfl⟩ : ∃ f, fuel = f + 1 := ⟨fuel - 1, by omega⟩
    have : i = k := by omega
    subst this
    exact ⟨s, by simp [for_each_index, hk], by simp⟩
  | succ n ih =>
    intro i s fuel hik hpres hf
    obtain ⟨f, rfl⟩ : ∃ f, fuel = f + 1 := ⟨fuel - 1, by omega⟩
    obtain ⟨x, hx⟩ := Option.ne_none_iff_exists'.mp (hpres i (le_refl _) (by omega))
    have hmod : (i + 1) % UINT_MOD = i + 1 := Nat.mod_eq_of_lt (by omega)
    by_cases hm : (strstr (L.bpftune_sysctl_name_to_path x.desc.name) event.str).isSome = true
    · refine ⟨s ++ [HEv.log LOG_DEBUG [L.bpftune_sysctl_name_to_path x.desc.name, event.str]] ++
          [HEv.log LOG_INFO [event.str, L.tuner_name t, L.tuner_name t],
           HEv.bpftuner_fini t bpftune_state.BPFTUNE_MANUAL],
        by simp [for_each_index, hx, tunable_body, hm], ?_⟩
      simp [finis_append, finis, List.range'_succ, hx, hm]
    · obtain ⟨s1, h1, h2⟩ := ih (i + 1)
        (s ++ [HEv.log LOG_DEBUG [L.bpftune_sysctl_name_to_path x.desc.name, event.str]]) f
        (by omega) (fun j hj hjk => hpres j (by omega) hjk) (by omega)
      refine ⟨s1, by simp [for_each_index, hx, tunable_body, hm, hmod, h1], ?_⟩
      have hm2 : (strstr (L.bpftune_sysctl_name_to_path x.desc.name) event.str).isSome = false :=
        Bool.eq_false_iff.mpr hm
      rw [h2, show List.range' i (n + 1) = i :: List.range' (i + 1) n from rfl, List.any_cons,
        hx]
      simp only [hm2, Bool.false_or, finis_append, finis, List.append_nil]

theorem outer_run (L : Lookups) (tuner : TunerPtr) (event : bpftune_event) (K : Nat)
    (len : TunerPtr → Nat) (fuel0 : Nat)
    (hK : L.bpftune_tuner K = none) (hKb : K < UINT_MOD)
    (hlen : ∀ j, j < K → ∀ t, L.bpftune_tuner j = some t →
      L.bpftuner_tunable t (len t) = none ∧ (∀ i, i < len t → L.bpftuner_tunable t i ≠ none) ∧
        len t < UINT_MOD ∧ len t < fuel0) :
    ∀ (n j : Nat) (s : List HEv) (fuel : Nat), j + n = K →
      (∀ i, j ≤ i → i < K → L.bpftune_tuner i ≠ none) → n < fuel →
      ∃ s1, for_each_index L.bpftune_tuner (tuner_body L tuner event fuel0) fuel j s = some s1 ∧
        finis s1 = finis s ++
          ((List.range' j n).filterMap L.bpftune_tuner).filter
            (fun t => has_match L event.str t (len t)) := by
  intro n
  induction n with
  | zero =>
    intro j s fuel hjk _ hf
    obtain ⟨f, rfl⟩ : ∃ f, fuel = f + 1 := ⟨fuel - 1, by omega⟩
    have : j = K := by omega
    subst this
    exact ⟨s, by simp [for_each_index, hK], by simp⟩
  | succ n ih =>
    intro j s fuel hjk hpres hf
    obtain ⟨f, rfl⟩ : ∃ f, fuel = f + 1 := ⟨fuel - 1, by omega⟩
    obtain ⟨t, ht⟩ := Option.ne_none_iff_exists'.mp (hpres j (le_refl _) (by omega))
    have hmod : (j + 1) % UINT_MOD = j + 1 := Nat.mod_eq_of_lt (by omega)
    obtain ⟨hl1, hl2, hl3, hl4⟩ := hlen j (by omega) t ht
    obtain ⟨s1, h1, h2⟩ := inner_run L event t (len t) hl1 hl3 (len t) 0
      (s ++ [HEv.log LOG_DEBUG [L.tuner_name tuner]]) fuel0 (by omega)
      (fun i _ hi => hl2 i hi) hl4
    obtain ⟨s2, h3, h4⟩ := ih (j + 1) s1 f (by omega)
      (fun i hi hik => hpres i (by omega) hik) (by omega)
    refine ⟨s2, ?_, ?_⟩
    · simp [for_each_index, ht, tuner_body, bpftuner_for_each_tunable, h1, hmod, h3]
    · rw [h4, h2]
      have hm : has_match L event.str t (len t) =
          (List.range' 0 (len t)).any (fun i =>
              match L.bpftuner_tunable t i with
              | some tunable =>
                (strstr (L.bpftune_sysctl_name_to_path tunable.desc.name) event.str).isSome
              | none => false) := by
        simp [has_match, List.range_eq_range']
      by_cases hb : has_match L event.str t (len t) = true
      · rw [← hm]
        simp [finis_append, finis, List.range'_succ, ht, hb, List.filter_cons]
      · rw [← hm]
        simp [finis_append, finis, List.range'_succ, ht, hb, List.filter_cons]

theorem handler_run (L : Lookups) (tuner : TunerPtr) (event : bpftune_event) (K : Nat)
    (len : TunerPtr → Nat) (fuel : Nat)
    (hK : L.bpftune_tuner K = none) (hKmin : ∀ j, j < K → L.bpftune_tuner j ≠ none)
    (hKb : K < UINT_MOD) (hfuel : K < fuel)
    (hlen : ∀ j, j < K → ∀ t, L.bpftune_tuner j = some t →
      L.bpftuner_tunable t (len t) = none ∧ (∀ i, i < len t → L.bpftuner_tunable t i ≠ none) ∧
        len t < UINT_MOD ∧ len t < fuel) :
    ∃ evs, event_handler L tuner event fuel = some evs ∧
      finis evs = (registered L K).filter (fun t => has_match L event.str t (len t)) := by
  obtain ⟨s1, h1, h2⟩ := outer_run L tuner event K len fuel hK hKb hlen K 0
    [HEv.log LOG_DEBUG [event.str, L.tuner_name tuner]] fuel (by omega)
    (fun i _ hi => hKmin i hi) hfuel
  refine ⟨s1, ?_, ?_⟩
  · simp [event_handler, bpftune_for_each_tuner, h1]
  · rw [h2]
    simp [finis, registered, List.range_eq_range']

theorem for_each_index_invariant {X σ : Type} (lookup : Nat → Option X)
    (body : σ → Nat → X → Option (σ × Bool)) (I : σ → Prop)
    (hbody : ∀ s i x s1 b, I s → body s i x = some (s1, b) → I s1) :
    ∀ (fuel i : Nat) (s s1 : σ), I s → for_each_index lookup body fuel i s = some s1 → I s1 := by
  intro fuel
  induction fuel with
  | zero =>
    intro i s s1 _ h
    simp [for_each_index] at h
  | succ f ih =>
    intro i s s1 hs h
    cases hx : lookup i with
    | none =>
      simp only [for_each_index, hx, Option.some.injEq] at h
      exact h ▸ hs
    | some x =>
      cases hb : body s i x with
      | none => simp [for_each_index, hx, hb] at h
      | some r =>
        obtain ⟨s2, b⟩ := r
        have hs2 : I s2 := hbody s i x s2 b hs hb
        cases b with
        | true =>
          simp only [for_each_index, hx, hb, Option.some.injEq] at h
          exact h ▸ hs2
        | false =>
          simp only [for_each_index, hx, hb] at h
          exact ih _ s2 s1 hs2 h

theorem handler_only_manual (L : Lookups) (tuner : TunerPtr) (event : bpftune_event)
    (fuel : Nat) (evs : List HEv) (h : event_handler L tuner event fuel = some evs) :
    ∀ t st, HEv.bpftuner_fini t st ∈ evs → st = bpftune_state.BPFTUNE_MANUAL := by
  have hin : ∀ (t0 : TunerPtr) (s : List HEv) (i : Nat) (x : bpftunable) (s1 : List HEv)
      (b : Bool),
      (∀ t st, HEv.bpftuner_fini t st ∈ s → st = bpftune_state.BPFTUNE_MANUAL) →
      tunable_body L event t0 s i x = some (s1, b) →
      ∀ t st, HEv.bpftuner_fini t st ∈ s1 → st = bpftune_state.BPFTUNE_MANUAL := by
    intro t0 s i x s1 b hs hb t st hmem
    unfold tunable_body at hb
    by_cases hm : (strstr (L.bpftune_sysctl_name_to_path x.desc.name) event.str).isSome = true
    · rw [if_pos hm] at hb
      cases hb
      simp at hmem
      rcases hmem with hmem | hmem
      · exact hs t st hmem
      · exact hmem.2
    · rw [if_neg hm] at hb
      cases hb
      simp at hmem
      exact hs t st hmem
  have hout : ∀ (s : List HEv) (i : Nat) (t0 : TunerPtr) (s1 : List HEv) (b : Bool),
      (∀ t st, HEv.bpftuner_fini t st ∈ s → st = bpftune_state.BPFTUNE_MANUAL) →
      tuner_body L tuner event fuel s i t0 = some (s1, b) →
      ∀ t st, HEv.bpftuner_fini t st ∈ s1 → st = bpftune_state.BPFTUNE_MANUAL := by
    intro s i t0 s1 b hs hb
    unfold tuner_body bpftuner_for_each_tunable at hb
    cases hr : for_each_index (L.bpftuner_tunable t0) (tunable_body L event t0) fuel 0
        (s ++ [HEv.log LOG_DEBUG [L.tuner_name tuner]]) with
    | none => simp [hr] at hb
    | some s2 =>
      simp only [hr] at hb
      cases hb
      refine for_each_index_invariant (L.bpftuner_tunable t0) (tunable_body L event t0)
        (fun s => ∀ t st, HEv.bpftuner_fini t st ∈ s → st = bpftune_state.BPFTUNE_MANUAL)
        (hin t0) fuel 0 _ _ ?_ hr
      intro t st hmem
      simp at hmem
      exact hs t st hmem
  refine for_each_index_invariant L.bpftune_tuner (tuner_body L tuner event fuel)
    (fun s => ∀ t st, HEv.bpftuner_fini t st ∈ s → st = bpftune_state.BPFTUNE_MANUAL)
    hout fuel 0 _ evs ?_ h
  intro t st hmem
  simp at hmem

theorem has_match_iff (L : Lookups) (str : List Char) (t : TunerPtr) (len : Nat) :
    has_match L str t len = true ↔
      ∃ i tunable, i < len ∧ L.bpftuner_tunable t i = some tunable ∧
        str <:+: L.bpftune_sysctl_name_to_path tunable.desc.name := by
  simp only [has_match, List.any_eq_true, List.mem_range]
  constructor
  · rintro ⟨i, hi, h⟩
    cases hx : L.bpftuner_tunable t i with
    | none => simp [hx] at h
    | some x =>
      simp only [hx] at h
      exact ⟨i, x, hi, hx, (strstr_isSome_iff _ _).mp h⟩
  · rintro ⟨i, x, hi, hx, h⟩
    refine ⟨i, hi, ?_⟩
    rw [hx]
    exact (strstr_isSome_iff _ _).mpr h

/-! ## Program lifecycle -/

/-- C1 (as amended): `bpftuner_bpf_attach` calls the kernel attach once or twice, and twice
exactly when the first attach fails, an optionals list was supplied, the reopen yields a handle
and the reload succeeds.  Its external calls are, in order: the attach; after a failed attach
with optionals `bpftuner_bpf_fini`, the skeleton open and, when that yields a handle, the load
with the optionals passed; the second attach only after a successful reload; a destroy when the
macro returns an error from a load or attach. -/
theorem bpftuner_bpf_attach_attempts (env : Env) (name : String)
    (optionals : Option (List String)) (m : Mach) :
    attach_attempts (bpftuner_bpf_attach env name optionals m).2.2 =
        (if env.attach_err m.attaches ≠ 0 ∧ optionals ≠ none ∧ env.open_err m.opens = 0 ∧
            env.load_err m.loads = 0 then 2 else 1) ∧
      calls (bpftuner_bpf_attach env name optionals m).2.2 =
        (if env.attach_err m.attaches = 0 then
          [Ev.bpf_attach m.tuner.skel 0]
        else if optionals = none then
          [Ev.bpf_attach m.tuner.skel (env.attach_err m.attaches),
           Ev.skel_destroy m.tuner.bpf_legacy m.tuner.skel]
        else if env.open_err m.opens ≠ 0 then
          [Ev.bpf_attach m.tuner.skel (env.attach_err m.attaches),
           Ev.bpf_fini m.tuner.skel,
           Ev.skel_open (env.bpf_legacy m.opens) (SkelPtr.invalid (env.open_err m.opens))]
        else if env.load_err m.loads ≠ 0 then
          [Ev.bpf_attach m.tuner.skel (env.attach_err m.attaches),
           Ev.bpf_fini m.tuner.skel,
           Ev.skel_open (env.bpf_legacy m.opens) (SkelPtr.valid m.opens),
           Ev.bpf_load (SkelPtr.valid m.opens) true (env.load_err m.loads),
           Ev.skel_destroy (env.bpf_legacy m.opens) (SkelPtr.valid m.opens)]
        else if env.attach_err (m.attaches + 1) ≠ 0 then
          [Ev.bpf_attach m.tuner.skel (env.attach_err m.attaches),
           Ev.bpf_fini m.tuner.skel,
           Ev.skel_open (env.bpf_legacy m.opens) (SkelPtr.valid m.opens),
           Ev.bpf_load (SkelPtr.valid m.opens) true 0,
           Ev.bpf_attach (SkelPtr.valid m.opens) (env.attach_err (m.attaches + 1)),
           Ev.skel_destroy (env.bpf_legacy m.opens) (SkelPtr.valid m.opens)]
        else
          [Ev.bpf_attach m.tuner.skel (env.attach_err m.attaches),
           Ev.bpf_fini m.tuner.skel,
           Ev.skel_open (env.bpf_legacy m.opens) (SkelPtr.valid m.opens),
           Ev.bpf_load (SkelPtr.valid m.opens) true 0,
           Ev.bpf_attach (SkelPtr.valid m.opens) 0]) := by
  by_cases ha : env.attach_err m.attaches = 0
  · simp [bpftuner_bpf_attach, __bpftuner_bpf_attach, ret, bind, Exec.bind, pure, ha,
      attach_attempts, calls]
  · cases ho : optionals with
    | none =>
      simp [bpftuner_bpf_attach, __bpftuner_bpf_attach, destroy_eq, ret, bind, Exec.bind, pure,
        ha, attach_attempts, calls]
    | some os =>
      by_cases hop : env.open_err m.opens = 0
      · by_cases hld : env.load_err m.loads = 0
        · by_cases ha2 : env.attach_err (m.attaches + 1) = 0 <;>
          simp [bpftuner_bpf_attach, __bpftuner_bpf_attach, destroy_eq, bpftuner_bpf_fini,
            open_eq, load_eq, ret, bind, Exec.bind, pure, ha, attach_attempts, calls, hop, hld,
            ha2]
        · simp [bpftuner_bpf_attach, __bpftuner_bpf_attach, destroy_eq, bpftuner_bpf_fini,
            open_eq, load_eq, ret, bind, Exec.bind, pure, ha, attach_attempts, calls, hop, hld]
      · simp [bpftuner_bpf_attach, __bpftuner_bpf_attach, destroy_eq, bpftuner_bpf_fini,
          open_eq, load_eq, ret, bind, Exec.bind, pure, ha, attach_attempts, calls, hop]

/-- C1 (counterexample): the first attach fails, an optionals list is supplied, the reopen
succeeds and the reload fails.  The macro returns the load error -22 after a single attach
attempt: there is no "one more" attempt. -/
theorem bpftuner_bpf_attach_reload_failure_single_attempt :
    env_reload_fails.attach_err loaded.attaches ≠ 0 ∧
      (some ["opt"] : Option (List String)) ≠ none ∧
      (bpftuner_bpf_attach env_reload_fails "sysctl" (some ["opt"]) loaded).1 = Flow.ret (-22) ∧
      attach_attempts (bpftuner_bpf_attach env_reload_fails "sysctl" (some ["opt"]) loaded).2.2
        = 1 := by
  decide

/-- C2 (as amended): when `__bpftuner_bpf_load` fails, `_bpftuner_bpf_load` (and so
`bpftuner_bpf_load`) destroys the handle and makes the caller return the load error at once:
its only external calls are that one load and the destroy, with no reopen and no second load. -/
theorem bpftuner_bpf_load_failure_returns_at_once (env : Env)
    (optionals : Option (List String)) (m : Mach) (h : env.load_err m.loads ≠ 0) :
    _bpftuner_bpf_load env optionals m =
        (Flow.ret (env.load_err m.loads), { m with loads := m.loads + 1 },
          [Ev.bpf_load m.tuner.skel optionals.isSome (env.load_err m.loads),
           Ev.skel_destroy m.tuner.bpf_legacy m.tuner.skel]) ∧
      bpftuner_bpf_load env m =
        (Flow.ret (env.load_err m.loads), { m with loads := m.loads + 1 },
          [Ev.bpf_load m.tuner.skel false (env.load_err m.loads),
           Ev.skel_destroy m.tuner.bpf_legacy m.tuner.skel]) := by
  constructor
  · rw [load_eq, if_pos h]
  · rw [bpftuner_bpf_load, load_eq, if_pos h]
    rfl

/-- C2 (witness): the load of handle 0 fails with -22. -/
theorem bpftuner_bpf_load_failure_returns_at_once_witness :
    _bpftuner_bpf_load env_load_fails (some ["opt"]) opened_once =
        (Flow.ret (-22), { opened_once with loads := 1 },
          [Ev.bpf_load (SkelPtr.valid 0) true (-22), Ev.skel_destroy false (SkelPtr.valid 0)]) ∧
      bpftuner_bpf_load env_load_fails opened_once =
        (Flow.ret (-22), { opened_once with loads := 1 },
          [Ev.bpf_load (SkelPtr.valid 0) false (-22),
           Ev.skel_destroy false (SkelPtr.valid 0)]) :=
  bpftuner_bpf_load_failure_returns_at_once env_load_fails (some ["opt"]) opened_once
    (by decide)

/-- C2 (counterexample): in `bpftuner_bpf_init` with an optionals list, a failing load makes the
caller return -22 after one skeleton open and one load: no reopen, no retried load. -/
theorem bpftuner_bpf_init_load_failure_single_load :
    (bpftuner_bpf_init env_load_fails "sysctl" (some ["opt"]) fresh).1 = Flow.ret (-22) ∧
      load_attempts (bpftuner_bpf_init env_load_fails "sysctl" (some ["opt"]) fresh).2.2 = 1 ∧
      open_attempts (bpftuner_bpf_init env_load_fails "sysctl" (some ["opt"]) fresh).2.2 = 1 ∧
      calls (bpftuner_bpf_init env_load_fails "sysctl" (some ["opt"]) fresh).2.2 =
        [Ev.skel_open false (SkelPtr.valid 0), Ev.bpf_load (SkelPtr.valid 0) false (-22),
         Ev.skel_destroy false (SkelPtr.valid 0)] := by
  decide

/-- Outcome of `bpftuner_bpf_init` and the handles it leaves open, for every outcome of the
external calls.  It falls through with one open handle when the first attach succeeds (the first
handle) or when the retry succeeds (the second handle).  It makes the caller return the
non-zero code of the failed load or attach, with no handle open, when a load fails or an attach
fails for good.  It stops in the access through the absent handle, with no handle open and no
error returned, when a skeleton open fails.  No release ever misses an open handle. -/
theorem bpftuner_bpf_init_outcome (env : Env) (name : String)
    (optionals : Option (List String)) (m : Mach) :
    (bpftuner_bpf_init env name optionals m).1 =
        (if env.open_err m.opens ≠ 0 then Flow.fault
         else if env.load_err m.loads ≠ 0 then Flow.ret (env.load_err m.loads)
         else if env.attach_err m.attaches = 0 then Flow.next ()
         else if optionals = none then Flow.ret (env.attach_err m.attaches)
         else if env.open_err (m.opens + 1) ≠ 0 then Flow.fault
         else if env.load_err (m.loads + 1) ≠ 0 then Flow.ret (env.load_err (m.loads + 1))
         else if env.attach_err (m.attaches + 1) ≠ 0 then
           Flow.ret (env.attach_err (m.attaches + 1))
         else Flow.next ()) ∧
      track (bpftuner_bpf_init env name optionals m).2.2 =
        some (if env.open_err m.opens ≠ 0 then []
         else if env.load_err m.loads ≠ 0 then []
         else if env.attach_err m.attaches = 0 then [m.opens]
         else if optionals = none then []
         else if env.open_err (m.opens + 1) ≠ 0 then []
         else if env.load_err (m.loads + 1) ≠ 0 then []
         else if env.attach_err (m.attaches + 1) ≠ 0 then []
         else [m.opens + 1]) := by
  by_cases ho0 : env.open_err m.opens = 0
  swap
  · simp [bpftuner_bpf_init, open_eq, bind, Exec.bind, track, track_step, ho0]
  by_cases hl0 : env.load_err m.loads = 0
  swap
  · simp [bpftuner_bpf_init, bpftuner_bpf_load, open_eq, load_eq, bind, Exec.bind, track,
      track_step, ho0, hl0]
  by_cases ha0 : env.attach_err m.attaches = 0
  · simp [bpftuner_bpf_init, bpftuner_bpf_load, bpftuner_bpf_attach, __bpftuner_bpf_attach,
      open_eq, load_eq, bind, Exec.bind, pure, track, track_step, ho0, hl0, ha0]
  cases hopt : optionals with
  | none =>
    simp [bpftuner_bpf_init, bpftuner_bpf_load, bpftuner_bpf_attach, __bpftuner_bpf_attach,
      destroy_eq, ret, open_eq, load_eq, bind, Exec.bind, pure, track, track_step, ho0, hl0, ha0]
  | some os =>
    by_cases ho1 : env.open_err (m.opens + 1) = 0
    swap
    · simp [bpftuner_bpf_init, bpftuner_bpf_load, bpftuner_bpf_attach, __bpftuner_bpf_attach,
        bpftuner_bpf_fini, destroy_eq, ret, open_eq, load_eq, bind, Exec.bind, pure, track,
        track_step, ho0, hl0, ha0, ho1]
    by_cases hl1 : env.load_err (m.loads + 1) = 0
    swap
    · simp [bpftuner_bpf_init, bpftuner_bpf_load, bpftuner_bpf_attach, __bpftuner_bpf_attach,
        bpftuner_bpf_fini, destroy_eq, ret, open_eq, load_eq, bind, Exec.bind, pure, track,
        track_step, ho0, hl0, ha0, ho1, hl1]
    by_cases ha1 : env.attach_err (m.attaches + 1) = 0 <;>
    simp [bpftuner_bpf_init, bpftuner_bpf_load, bpftuner_bpf_attach, __bpftuner_bpf_attach,
      bpftuner_bpf_fini, destroy_eq, ret, open_eq, load_eq, bind, Exec.bind, pure, track,
      track_step, ho0, hl0, ha0, ho1, hl1, ha1]

/-- C4 (the code at the failing input): the first open and load succeed, the first attach fails
with -1, an optionals list is supplied and the fallback retry's open yields no handle.
`bpftuner_bpf_init` does not make the caller return an error: after `bpftuner_bpf_fini` and the
failed reopen its last step is the read of `->skeleton` through the absent handle.  The handle
of the first open was released once, by `bpftuner_bpf_fini`. -/
theorem bpftuner_bpf_init_reopen_failure_no_error_return :
    (bpftuner_bpf_init env_reopen_fails "sysctl" (some ["opt"]) fresh).1 = Flow.fault ∧
      calls (bpftuner_bpf_init env_reopen_fails "sysctl" (some ["opt"]) fresh).2.2 =
        [Ev.skel_open false (SkelPtr.valid 0), Ev.bpf_load (SkelPtr.valid 0) false 0,
         Ev.bpf_attach (SkelPtr.valid 0) (-1), Ev.bpf_fini (SkelPtr.valid 0),
         Ev.skel_open false (SkelPtr.invalid (-12))] ∧
      (bpftuner_bpf_init env_reopen_fails "sysctl" (some ["opt"]) fresh).2.2.getLast? =
        some (Ev.access (SkelPtr.invalid (-12)) SkelField.skeleton) ∧
      track (bpftuner_bpf_init env_reopen_fails "sysctl" (some ["opt"]) fresh).2.2 =
        some [] := by
  decide

/-- C5 (the code at the failing input): open, load and attach succeed and
`bpftuner_cgroup_attach` fails.  `init` returns 1 having made no destroy or fini call: handle 0
is still open when it returns. -/
theorem init_cgroup_attach_failure_keeps_handle :
    (init env_cgroup_fails none fresh).1 = Flow.ret 1 ∧
      calls (init env_cgroup_fails none fresh).2.2 =
        [Ev.skel_open false (SkelPtr.valid 0), Ev.bpf_load (SkelPtr.valid 0) false 0,
         Ev.bpf_attach (SkelPtr.valid 0) 0,
         Ev.cgroup_attach "sysctl_write" bpf_attach_type.BPF_CGROUP_SYSCTL (-1)] ∧
      track (init env_cgroup_fails none fresh).2.2 = some [0] := by
  decide

/-- C6 (the code at the failing input): the skeleton open yields no handle, in the current and
in the legacy format.  The first step after the open is the read of `->skeleton` through the
absent handle; `libbpf_get_error` is never reached and no error is returned. -/
theorem bpftuner_bpf_open_failure_dereferences :
    (bpftuner_bpf_open env_open_fails "sysctl" fresh).1 = Flow.fault ∧
      (bpftuner_bpf_open env_open_fails "sysctl" fresh).2.2 =
        [Ev.skel_open false (SkelPtr.invalid (-12)),
         Ev.access (SkelPtr.invalid (-12)) SkelField.skeleton] ∧
      (bpftuner_bpf_open env_open_fails_legacy "sysctl" fresh).1 = Flow.fault ∧
      (bpftuner_bpf_open env_open_fails_legacy "sysctl" fresh).2.2 =
        [Ev.skel_open true (SkelPtr.invalid (-12)),
         Ev.access (SkelPtr.invalid (-12)) SkelField.skeleton] := by
  decide

/-- C8: from every state, the external calls of the sysctl tuner's `fini` are exactly the cgroup
detach of "sysctl_write" with `BPF_CGROUP_SYSCTL`, once, followed by `bpftuner_bpf_fini`; the
function falls through to its end. -/
theorem fini_detaches_once_before_bpf_fini (m : Mach) :
    (fini m).1 = Flow.next () ∧
      calls (fini m).2.2 =
        [Ev.cgroup_detach "sysctl_write" bpf_attach_type.BPF_CGROUP_SYSCTL,
         Ev.bpf_fini m.tuner.skel] := by
  simp [fini, getTuner, emit, bpftuner_cgroup_detach, bpftuner_bpf_fini, bind, Exec.bind, calls]

/-! ## Index scans and the sysctl event handler -/

/-- C9: when the lookup `bpftuner_tunable(tuner, i)` is absent at some index, there is a least
such index `k`, and with enough fuel `bpftuner_for_each_tunable` ends having run its body on the
indices 0, 1, ..., k-1 in this order, once each, with the tunable found at that index, and on
no other index.  `bpftuner_tunable_name` gives the descriptor name of a present tunable and NULL
for an absent one. -/
theorem bpftuner_for_each_tunable_visits (L : Lookups) (tuner : TunerPtr)
    (h : ∃ i, i < UINT_MOD ∧ L.bpftuner_tunable tuner i = none) :
    (∃ k, L.bpftuner_tunable tuner k = none ∧
        (∀ i, i < k → L.bpftuner_tunable tuner i ≠ none) ∧
        ∀ fuel, k < fuel →
          ∃ vs, bpftuner_for_each_tunable L tuner visit fuel [] = some vs ∧
            vs.map Prod.fst = List.range k ∧
            ∀ p ∈ vs, L.bpftuner_tunable tuner p.1 = some p.2) ∧
      (∀ i t, L.bpftuner_tunable tuner i = some t →
        bpftuner_tunable_name L tuner i = some t.desc.name) ∧
      (∀ i, L.bpftuner_tunable tuner i = none → bpftuner_tunable_name L tuner i = none) := by
  classical
  refine ⟨?_, ?_, ?_⟩
  · have hex : ∃ i, L.bpftuner_tunable tuner i = none := by
      obtain ⟨i, _, hi⟩ := h
      exact ⟨i, hi⟩
    refine ⟨Nat.find hex, Nat.find_spec hex, fun i hi => Nat.find_min hex hi, ?_⟩
    intro fuel hfuel
    have hkb : Nat.find hex < UINT_MOD := by
      obtain ⟨i, hib, hi⟩ := h
      exact lt_of_le_of_lt (Nat.find_min' hex hi) hib
    obtain ⟨vs, h1, h2, h3⟩ := visit_run (L.bpftuner_tunable tuner) (Nat.find hex)
      (Nat.find_spec hex) hkb (Nat.find hex) 0 [] fuel (by omega)
      (fun j _ hj => Nat.find_min hex hj) hfuel
    refine ⟨vs, ?_, ?_, h3⟩
    · simpa [bpftuner_for_each_tunable] using h1
    · simpa [List.range_eq_range'] using h2
  · intro i t ht
    simp [bpftuner_tunable_name, ht]
  · intro i hi
    simp [bpftuner_tunable_name, hi]

/-- C9 (witness): tuner 10 of `reg3` has no tunable at index 2. -/
theorem bpftuner_for_each_tunable_visits_witness :
    (∃ k, reg3.bpftuner_tunable 10 k = none ∧
        (∀ i, i < k → reg3.bpftuner_tunable 10 i ≠ none) ∧
        ∀ fuel, k < fuel →
          ∃ vs, bpftuner_for_each_tunable reg3 10 visit fuel [] = some vs ∧
            vs.map Prod.fst = List.range k ∧
            ∀ p ∈ vs, reg3.bpftuner_tunable 10 p.1 = some p.2) ∧
      (∀ i t, reg3.bpftuner_tunable 10 i = some t →
        bpftuner_tunable_name reg3 10 i = some t.desc.name) ∧
      (∀ i, reg3.bpftuner_tunable 10 i = none → bpftuner_tunable_name reg3 10 i = none) :=
  bpftuner_for_each_tunable_visits reg3 10 ⟨2, by decide, by decide⟩

/-- C10: over a registry whose lookups stay fixed during the scan and which lists no tuner
twice, with `K` the first index without a tuner and `len t` the first index without a tunable of
`t`, and fuel above these, `event_handler` ends, and its `bpftuner_fini(t, BPFTUNE_MANUAL)`
calls are, in registry order, the registered tuners that have a tunable below `len t` whose path
contains the event string.  So a tuner is torn down if and only if it is registered and has such
a tunable, and at most once; the handler makes no `bpftuner_fini` call with another state; and
an empty event string tears down exactly the registered tuners that have a tunable at
index 0. -/
theorem event_handler_fini_calls (L : Lookups) (tuner : TunerPtr) (event : bpftune_event)
    (K : Nat) (len : TunerPtr → Nat) (fuel : Nat)
    (hK : L.bpftune_tuner K = none) (hKmin : ∀ j, j < K → L.bpftune_tuner j ≠ none)
    (hKb : K < UINT_MOD) (hfuel : K < fuel)
    (hlen : ∀ j, j < K → ∀ t, L.bpftune_tuner j = some t →
      L.bpftuner_tunable t (len t) = none ∧ (∀ i, i < len t → L.bpftuner_tunable t i ≠ none) ∧
        len t < UINT_MOD ∧ len t < fuel)
    (hnodup : (registered L K).Nodup) :
    ∃ evs, event_handler L tuner event fuel = some evs ∧
      finis evs = (registered L K).filter (fun t => has_match L event.str t (len t)) ∧
      (∀ t, t ∈ finis evs ↔
        t ∈ registered L K ∧
          ∃ i tunable, i < len t ∧ L.bpftuner_tunable t i = some tunable ∧
            (strstr (L.bpftune_sysctl_name_to_path tunable.desc.name) event.str).isSome
              = true) ∧
      (∀ t, (finis evs).count t ≤ 1) ∧
      (∀ t st, HEv.bpftuner_fini t st ∈ evs → st = bpftune_state.BPFTUNE_MANUAL) ∧
      (event.str = [] →
        finis evs = (registered L K).filter (fun t => (L.bpftuner_tunable t 0).isSome)) := by
  obtain ⟨evs, h1, h2⟩ := handler_run L tuner event K len fuel hK hKmin hKb hfuel hlen
  refine ⟨evs, h1, h2, ?_, ?_, handler_only_manual L tuner event fuel evs h1, ?_⟩
  · intro t
    rw [h2, List.mem_filter, has_match_iff]
    simp only [strstr_isSome_iff]
  · intro t
    rw [h2]
    exact List.nodup_iff_count_le_one.mp (hnodup.filter _) t
  · intro hstr
    rw [h2]
    apply List.filter_congr
    intro t ht
    obtain ⟨j, hj, hjt⟩ := List.mem_filterMap.mp ht
    obtain ⟨hl1, hl2, _, _⟩ := hlen j (List.mem_range.mp hj) t hjt
    rw [hstr]
    by_cases h0 : len t = 0
    · rw [h0] at hl1
      simp [has_match, h0, hl1]
    · obtain ⟨x, hx⟩ := Option.ne_none_iff_exists'.mp (hl2 0 (by omega))
      have : has_match L [] t (len t) = true :=
        (has_match_iff L [] t (len t)).mpr ⟨0, x, by omega, hx, List.nil_infix⟩
      simp [this, hx]

/-- C10 (witness): on `reg3`, which lists the tuners 10, 11, 12 once each, the event string
"tcp_rmem" tears down tuner 10 only. -/
theorem event_handler_fini_calls_witness :
    (registered reg3 3).Nodup ∧
    ∃ evs, event_handler reg3 0 ev_rmem 5 = some evs ∧
      finis evs = (registered reg3 3).filter (fun t => has_match reg3 ev_rmem.str t (reg3_len t)) ∧
      (∀ t, t ∈ finis evs ↔
        t ∈ registered reg3 3 ∧
          ∃ i tunable, i < reg3_len t ∧ reg3.bpftuner_tunable t i = some tunable ∧
            (strstr (reg3.bpftune_sysctl_name_to_path tunable.desc.name) ev_rmem.str).isSome
              = true) ∧
      (∀ t, (finis evs).count t ≤ 1) ∧
      (∀ t st, HEv.bpftuner_fini t st ∈ evs → st = bpftune_state.BPFTUNE_MANUAL) ∧
      (ev_rmem.str = [] →
        finis evs = (registered reg3 3).filter (fun t => (reg3.bpftuner_tunable t 0).isSome)) :=
  ⟨by decide,
    event_handler_fini_calls reg3 0 ev_rmem 3 reg3_len 5 (by decide) (by decide) (by decide)
      (by decide)
      (by
        intro j hj t ht
        interval_cases j <;> simp [reg3] at ht <;> subst ht <;> decide)
      (by decide)⟩

/-- C3 (as amended): over a registry whose lookups stay fixed during the scan and whose tuner and
tunable sequences end at a first absent index, if the registered tuner `A` has, below its first
absent tunable index, a tunable whose sysctl path contains the event string as a substring, the
handler ends and calls `bpftuner_fini(A, BPFTUNE_MANUAL)`. -/
theorem event_handler_tears_down_on_match (L : Lookups) (tuner : TunerPtr)
    (event : bpftune_event) (K : Nat) (len : TunerPtr → Nat) (fuel : Nat)
    (hK : L.bpftune_tuner K = none) (hKmin : ∀ j, j < K → L.bpftune_tuner j ≠ none)
    (hKb : K < UINT_MOD) (hfuel : K < fuel)
    (hlen : ∀ j, j < K → ∀ t, L.bpftune_tuner j = some t →
      L.bpftuner_tunable t (len t) = none ∧ (∀ i, i < len t → L.bpftuner_tunable t i ≠ none) ∧
        len t < UINT_MOD ∧ len t < fuel)
    (A : TunerPtr) (j : Nat) (hj : j < K) (hA : L.bpftune_tuner j = some A)
    (i : Nat) (tunable : bpftunable) (hi : i < len A)
    (hx : L.bpftuner_tunable A i = some tunable)
    (hsub : event.str <:+: L.bpftune_sysctl_name_to_path tunable.desc.name) :
    ∃ evs, event_handler L tuner event fuel = some evs ∧ A ∈ finis evs := by
  obtain ⟨evs, h1, h2⟩ := handler_run L tuner event K len fuel hK hKmin hKb hfuel hlen
  refine ⟨evs, h1, ?_⟩
  rw [h2, List.mem_filter]
  exact ⟨List.mem_filterMap.mpr ⟨j, List.mem_range.mpr hj, hA⟩,
    (has_match_iff L event.str A (len A)).mpr ⟨i, tunable, hi, hx, hsub⟩⟩

/-- C3 (witness): on `reg3`, tuner 10 has the tunable `net.ipv4.tcp_rmem` at index 1, whose
path contains "tcp_rmem". -/
theorem event_handler_tears_down_on_match_witness :
    ev_rmem.str <:+: reg3.bpftune_sysctl_name_to_path "net.ipv4.tcp_rmem".toList ∧
      ∃ evs, event_handler reg3 0 ev_rmem 5 = some evs ∧ 10 ∈ finis evs :=
  ⟨by decide,
    event_handler_tears_down_on_match reg3 0 ev_rmem 3 reg3_len 5 (by decide) (by decide)
      (by decide) (by decide)
      (by
        intro j hj t ht
        interval_cases j <;> simp [reg3] at ht <;> subst ht <;> decide)
      10 0 (by decide) (by decide) 1 { desc := { name := "net.ipv4.tcp_rmem".toList } }
      (by decide) (by decide) (by decide)⟩

/-- C3 (counterexample): the registered tuner 1 has the tunable `net.ipv4.tcp_mem`, whose path
is a substring of the event string "/proc/sys/net/ipv4/tcp_mem_x"; the handler ends without any
`bpftuner_fini` call, because the event string does not occur in the path. -/
theorem event_handler_path_inside_event_string_no_teardown :
    reg1.bpftune_tuner 0 = some 1 ∧
      reg1.bpftuner_tunable 1 0 = some { desc := { name := "net.ipv4.tcp_mem".toList } } ∧
      reg1.bpftune_sysctl_name_to_path "net.ipv4.tcp_mem".toList <:+: ev_longer.str ∧
      (event_handler reg1 0 ev_longer 3).map finis = some [] := by
  decide

end Bpftune
